import Mathlib

/-!
Shallow embedding of the parallel bzip2 decompression pipeline in
src/lbunzip2.c: the splitter (split), the scanner and retriever
(work_scan, work_retrieve, work_oflush), the per-block decoder driver
(work_decompr) and the muxer (mux), together with the queue state they
share.  Machine unsigned integers are modelled as Nat with explicit
reduction mod 2^32 where overflow matters.
-/

namespace Lbunzip2

/-- Upper bound on the size of a bzip2 block, counted in 32-bit words:
1024 * 1024 / 4 words, so the compr buffer of an input chunk holds
1 MiB of bytes (src/lbunzip2.c line 49). -/
def MX_SPLIT : Nat := 1024 * 1024 / 4

/-- Worker decompression output granularity in bytes (line 263). -/
def MX_DECOMPR : Nat := 1024 * 1024

/-- A splitter-to-workers input chunk (struct s2w_blk, lines 51-58):
serial number id, number of loaded 32-bit words, and the reference count
refno assigned at publish time.  The compr payload itself is not needed
by the claims about the splitter. -/
structure S2wBlk where
  id : Nat
  loaded : Nat
  refno : Nat
  deriving Repr, DecidableEq

/-- One xread call of the splitter: it fills at most 4 * MX_SPLIT bytes
of the compr buffer; an input file with L bytes remaining delivers
min L (4 * MX_SPLIT) bytes (split, lines 389-390). -/
def split_read (L : Nat) : Nat := min L (4 * MX_SPLIT)

/-- Conversion of the vacant byte count to 32-bit words done by the
splitter after the read (lines 397-399): the zero-padding while loop
lowers vacant to a multiple of 4, then vacant is shifted right by 2. -/
def split_vacant_words (vacantBytes : Nat) : Nat :=
  (vacantBytes - vacantBytes % 4) / 4

/-- Number of vacant words left in the compr buffer after one splitter
iteration that read from an input with L bytes remaining. -/
def split_vw (L : Nat) : Nat := split_vacant_words (4 * MX_SPLIT - split_read L)

/-- The list of input chunks published by split (lines 376-513) on an
input of L bytes.  The first argument is fuel bounding the number of
loop iterations; L + 1 always suffices because every iteration that
continues the loop consumed at least 4 * MX_SPLIT - 3 > 0 bytes.  The
parameters id and atch mirror the local variables id and atch_scan of
split: the serial counter and whether a previously published chunk is
attached (the chunk whose next pointer the splitter will set). -/
def splitGo : Nat → Nat → Nat → Bool → List S2wBlk
  | 0, _, _, _ => []
  | fuel + 1, L, id, atch =>
    if split_vw L = MX_SPLIT then
      []
    else if split_vw L = 0 then
      { id := id + 1
        loaded := MX_SPLIT - split_vw L
        refno := 1 + (if atch then 1 else 0) } ::
        splitGo fuel (L - split_read L) (id + 1) true
    else
      [{ id := id + 1
         loaded := MX_SPLIT - split_vw L
         refno := 1 + (if atch then 1 else 0) }]

/-- All chunks split publishes for an input file of L bytes. -/
def splitChunks (L : Nat) : List S2wBlk := splitGo (L + 1) L 0 false

/-- Identity of a located compressed bzip2 block
(struct w2w_blk_id, lines 61-66). -/
structure W2wBlkId where
  s2w_blk_id : Nat
  bzip2_blk_id : Nat
  last_bzip2 : Bool
  deriving Repr, DecidableEq

/-- Comparison ordering the deco_q priority queue
(w2w_blk_cmp, lines 79-94). -/
def w2w_blk_cmp (a b : W2wBlkId) : Int :=
  if a.s2w_blk_id < b.s2w_blk_id then -1
  else if a.s2w_blk_id > b.s2w_blk_id then 1
  else if a.bzip2_blk_id < b.bzip2_blk_id then -1
  else if a.bzip2_blk_id > b.bzip2_blk_id then 1
  else 0

/-- A located compressed block handed from scanner to decoder
(struct w2w_blk, lines 69-76); the YBdec_t pointer is modelled by its
presence. -/
structure W2wBlk where
  id : W2wBlkId
  ybdec_present : Bool
  bs100k : Nat
  crc : Nat
  end_offs : Nat
  deriving Repr, DecidableEq

/-- Identity of a decompressed sub-block
(struct w2m_blk_id, lines 236-241). -/
structure W2mBlkId where
  w2w_blk_id : W2wBlkId
  decompr_blk_id : Nat
  last_decompr : Bool
  deriving Repr, DecidableEq

/-- The triple the muxer needs next to resume writing
(struct w2m_blk_nid, lines 244-249). -/
structure W2mBlkNid where
  s2w_blk_id : Nat
  bzip2_blk_id : Nat
  decompr_blk_id : Nat
  deriving Repr, DecidableEq

/-- Test whether a sub-block identity matches the needed triple
(w2m_blk_id_eq, lines 252-259). -/
def w2m_blk_id_eq (id : W2mBlkId) (nid : W2mBlkNid) : Bool :=
  id.w2w_blk_id.s2w_blk_id == nid.s2w_blk_id &&
  id.w2w_blk_id.bzip2_blk_id == nid.bzip2_blk_id &&
  id.decompr_blk_id == nid.decompr_blk_id

/-- A workers-to-muxer sub-block (struct w2m_blk, lines 265-276) without
the payload bytes; produced records how many bytes the payload holds. -/
structure W2mBlk where
  id : W2mBlkId
  produced : Nat
  bs100k : Nat
  bs100k1 : Nat
  crc : Nat
  crc1 : Nat
  end_offs : Nat
  deriving Repr, DecidableEq

/-- Comparison ordering the muxer reord priority queue
(w2m_blk_cmp, lines 279-296). -/
def w2m_blk_cmp (a b : W2mBlk) : Int :=
  if a.id.w2w_blk_id.s2w_blk_id < b.id.w2w_blk_id.s2w_blk_id then -1
  else if a.id.w2w_blk_id.s2w_blk_id > b.id.w2w_blk_id.s2w_blk_id then 1
  else if a.id.w2w_blk_id.bzip2_blk_id < b.id.w2w_blk_id.bzip2_blk_id then -1
  else if a.id.w2w_blk_id.bzip2_blk_id > b.id.w2w_blk_id.bzip2_blk_id then 1
  else if a.id.decompr_blk_id < b.id.decompr_blk_id then -1
  else if a.id.decompr_blk_id > b.id.decompr_blk_id then 1
  else 0

/-- Identity assigned by work_oflush (lines 648-665): a block with an
attached decoder receives the running triple and the last_bzip2 flag,
while the decoder-less block gets the fixed identity
(s2w_blk_id 0, bzip2_blk_id 0, last_bzip2 true). -/
def work_oflush_id (ybdec_present : Bool) (s2w_blk_id bzip2_blk_id : Nat)
    (last_bzip2 : Bool) : W2wBlkId :=
  if ybdec_present then
    { s2w_blk_id := s2w_blk_id, bzip2_blk_id := bzip2_blk_id,
      last_bzip2 := last_bzip2 }
  else
    { s2w_blk_id := 0, bzip2_blk_id := 0, last_bzip2 := true }

/-- Whether work_retrieve attaches a decoder to the first block it
allocates for a chunk (lines 1001-1011): only for the chunk with id 1,
which starts with the 4-byte stream header, does the first published
block carry no decoder; every other first block and every block
allocated later gets a fresh decoder from YBdec_init. -/
def work_retrieve_first_ybdec (id : Nat) : Bool := id != 1

/-- Value stored into end_offs when a block is flushed by work_retrieve
(lines 1022-1023 and the analogous sites): id is the serial number of
the chunk in which retrieval of the block ended and ipos the word
position reached inside its compr buffer. -/
def work_retrieve_end_offs (id ipos : Nat) : Nat :=
  if 0 < id then (id - 1) * MX_SPLIT + ipos else 0

/-- Position, counted in 32-bit words from the start of the input file,
of the cursor ipos inside the chunk with serial number id; every chunk
before it carried MX_SPLIT words. -/
def end_word_pos (id ipos : Nat) : Nat := (id - 1) * MX_SPLIT + ipos

/-- Following the words of the claim: the offset counted in bytes from
the start of the file of the point where the block ends, for a block
whose retrieval ends at word position ipos of chunk id; each 32-bit
word covers 4 bytes. -/
def end_offs_spec_bytes (id ipos : Nat) : Nat := 4 * end_word_pos id ipos

/-- The total used by the muxer progress accounting (lines 1379, 1464
and 1507): the input file size converted from bytes to 32-bit words. -/
def mux_progress_total (size : Nat) : Nat := (size + 3) / 4

/-- The single sub-block work_decompr emits for a block without an
attached decoder (lines 553-575): sub index 0, terminal, no payload
bytes, zero end offset, carrying the bs100k hint of the block. -/
def work_decompr_sentinel (w : W2wBlk) : W2mBlk :=
  { id := { w2w_blk_id := w.id, decompr_blk_id := 0, last_decompr := true }
    produced := 0
    bs100k := w.bs100k
    bs100k1 := 0
    crc := 0
    crc1 := 0
    end_offs := 0 }

/-- work_decompr on a decoder-less block pushes exactly one sub-block to
the muxer queue and returns (lines 553-575). -/
def work_decompr_no_ybdec (w : W2wBlk) : List W2mBlk :=
  [work_decompr_sentinel w]

/-- Initial needed triple set by w2m_q_init (lines 321-323). -/
def w2m_q_init_needed : W2mBlkNid :=
  { s2w_blk_id := 0, bzip2_blk_id := 0, decompr_blk_id := 0 }

/-- Initial reord_needed triple set by mux (lines 1381-1383). -/
def mux_reord_needed_init : W2mBlkNid :=
  { s2w_blk_id := 0, bzip2_blk_id := 0, decompr_blk_id := 0 }

/-- Advance of reord_needed after the muxer emits the sub-block with
identity id (mux, lines 1471-1484). -/
def mux_advance_needed (nid : W2mBlkNid) (id : W2mBlkId) : W2mBlkNid :=
  if id.last_decompr then
    if id.w2w_blk_id.last_bzip2 then
      { s2w_blk_id := nid.s2w_blk_id + 1, bzip2_blk_id := 0,
        decompr_blk_id := 0 }
    else
      { s2w_blk_id := nid.s2w_blk_id, bzip2_blk_id := nid.bzip2_blk_id + 1,
        decompr_blk_id := 0 }
  else
    { s2w_blk_id := nid.s2w_blk_id, bzip2_blk_id := nid.bzip2_blk_id,
      decompr_blk_id := nid.decompr_blk_id + 1 }

/-- Muxer-private stream state (mux, lines 1386-1389). -/
structure MuxSt where
  bs100k : Nat
  crc : Nat
  any : Bool
  finished : Bool
  deriving Repr, DecidableEq

/-- Initial muxer stream state (lines 1386-1389). -/
def mux_init : MuxSt :=
  { bs100k := 0, crc := 0, any := false, finished := false }

/-- The stream CRC fold applied when a sub-block with last_decompr set
is consumed (line 1443): crc = (crc << 1) ^ (crc >> 31) ^ crc1 in
32-bit unsigned arithmetic. -/
def mux_crc_fold (crc crc1 : Nat) : Nat :=
  ((crc <<< 1) % 2 ^ 32) ^^^ (crc >>> 31) ^^^ crc1

/-- Rotate left by one of a 32-bit value: every bit moves one position
up and the high bit wraps around to the low bit. -/
def rotl32 (c : Nat) : Nat := 2 * (c % 2 ^ 31) + c / 2 ^ 31

/-- Condition under which the muxer aborts with the message
"block overrun" (lines 1441-1446). -/
def mux_overrun (st : MuxSt) (b : W2mBlk) : Bool :=
  !st.finished && b.id.last_decompr && decide (st.bs100k < b.bs100k1)

/-- Condition under which the muxer aborts with the message
"stream CRC mismatch" (lines 1449-1454); the comparison uses the crc
value after the last_decompr fold of the same iteration. -/
def mux_crc_mismatch (st : MuxSt) (b : W2mBlk) : Bool :=
  !st.finished && (b.bs100k != 0) &&
    ((if b.id.last_decompr then mux_crc_fold st.crc b.crc1 else st.crc)
      != b.crc)

/-- One iteration of the muxer write-out loop acting on the stream state
(lines 1441-1457); the fatal aborts are modelled separately by
mux_overrun and mux_crc_mismatch.  When the sub-block opens a new stream
(bs100k nonzero) the source folds the block CRC first and then resets
crc to 0, so the fold result only survives in the bs100k = 0 branch. -/
def mux_consume (st : MuxSt) (b : W2mBlk) : MuxSt :=
  if st.finished then st
  else if b.bs100k ≠ 0 then
    { bs100k := b.bs100k
      crc := 0
      any := st.any || decide (b.bs100k ≤ 9)
      finished := decide (9 < b.bs100k) }
  else
    { st with
      crc := if b.id.last_decompr then mux_crc_fold st.crc b.crc1
        else st.crc }

/-- The muxer folded over the ordered sequence of sub-blocks it
consumes. -/
def mux_run (blks : List W2mBlk) : MuxSt := blks.foldl mux_consume mux_init

/-- Value of the any flag after the whole run. -/
def mux_any (blks : List W2mBlk) : Bool := (mux_run blks).any

/-- The post-loop check of mux (lines 1502-1504): abort with the message
"not a valid bzip2 file" iff any is still false. -/
def mux_fatal_not_valid (blks : List W2mBlk) : Bool := !(mux_any blks)

/-- A finished stream state is only ever left behind by the terminal
sentinel produced at the very end of the input, so in a real run no
sub-block opening a stream with bs100k in 1..9 follows a sub-block whose
bs100k exceeds 9. -/
def NoStreamAfterFinish (L : List W2mBlk) : Prop :=
  L.Pairwise (fun a b => 9 < a.bs100k → ¬(1 ≤ b.bs100k ∧ b.bs100k ≤ 9))

/-- Result of work_scan on one chunk (lines 1261-1313). -/
inductive ScanOutcome where
  | fatal (msg : String)
  | release_no_publish
  | retrieve (ipos ibitbuf ibits_left : Nat)
  deriving Repr, DecidableEq

/-- Control skeleton of work_scan (lines 1261-1313).  The DFA tables
big_dfa and mini_dfa come from the generated header scantab.h, which is
not among the repository sources; the outcome of the two DFA passes is
therefore a parameter dfa_accept together with the cursor values ipos,
ibitbuf and ibits_left they leave behind.  A chunk with id 1 skips the
DFA and goes straight to work_retrieve with the cursor at zero. -/
def work_scan (id loaded : Nat) (dfa_accept : Bool)
    (ipos ibitbuf ibits_left : Nat) : ScanOutcome :=
  if 1 < id then
    if dfa_accept then ScanOutcome.retrieve ipos ibitbuf ibits_left
    else if loaded = MX_SPLIT then
      ScanOutcome.fatal "missing bzip2 block header in full first input block"
    else ScanOutcome.release_no_publish
  else ScanOutcome.retrieve 0 0 0

/-! Helper lemmas. -/

lemma two_mul_xor_one (a : Nat) : 2 * a ^^^ 1 = 2 * a + 1 := by
  apply Nat.eq_of_testBit_eq
  intro i
  rw [Nat.testBit_xor]
  cases i with
  | zero =>
    have h0 : (2 * a) % 2 = 0 := by omega
    have h1 : (2 * a + 1) % 2 = 1 := by omega
    simp [Nat.testBit_zero, h0, h1]
  | succ n =>
    have h0 : (2 * a) / 2 = a := by omega
    have h1 : (2 * a + 1) / 2 = a := by omega
    simp [Nat.testBit_succ, h0, h1]

lemma shiftLeft_one_mod_pow32 (c : Nat) :
    (c <<< 1) % 2 ^ 32 = 2 * (c % 2 ^ 31) := by
  rw [Nat.shiftLeft_eq]
  have h2 : (2 : Nat) ^ 32 = 2 * 2 ^ 31 := by norm_num
  rw [h2, Nat.mul_comm c 2]
  exact Nat.mul_mod_mul_left 2 c (2 ^ 31)

lemma mux_crc_fold_eq_rotl32 (c d : Nat) (h : c < 2 ^ 32) :
    mux_crc_fold c d = rotl32 c ^^^ d := by
  have e31 : (2 : Nat) ^ 31 = 2147483648 := by norm_num
  have e32 : (2 : Nat) ^ 32 = 4294967296 := by norm_num
  have hdiv : c / 2 ^ 31 = 0 ∨ c / 2 ^ 31 = 1 := by
    rw [e31]; rw [e32] at h; omega
  rw [mux_crc_fold, rotl32, shiftLeft_one_mod_pow32,
    Nat.shiftRight_eq_div_pow]
  rcases hdiv with h0 | h1
  · rw [h0, Nat.xor_zero, Nat.add_zero]
  · rw [h1, two_mul_xor_one]

lemma splitGo_spec (fuel : Nat) : ∀ L id atch blk, blk ∈ splitGo fuel L id atch →
    blk.loaded ≤ MX_SPLIT ∧ id < blk.id ∧
    blk.refno = 1 + (if blk.id = id + 1 then (if atch then 1 else 0) else 1) := by
  induction fuel with
  | zero => intro L id atch blk h; simp [splitGo] at h
  | succ n ih =>
    intro L id atch blk h
    rw [splitGo] at h
    by_cases h1 : split_vw L = MX_SPLIT
    · rw [if_pos h1] at h
      simp at h
    · rw [if_neg h1] at h
      by_cases h2 : split_vw L = 0
      · rw [if_pos h2] at h
        rcases List.mem_cons.mp h with h | h
        · subst h
          refine ⟨Nat.sub_le _ _, Nat.lt_succ_self id, ?_⟩
          simp
        · obtain ⟨hl, hid, hr⟩ := ih _ _ _ _ h
          refine ⟨hl, Nat.lt_trans (Nat.lt_succ_self id) hid, ?_⟩
          have hne : blk.id ≠ id + 1 := by omega
          rw [hr]
          simp [hne]
      · rw [if_neg h2] at h
        simp at h
        subst h
        refine ⟨Nat.sub_le _ _, Nat.lt_succ_self id, ?_⟩
        simp

lemma mux_consume_any_of (st : MuxSt) (b : W2mBlk) (h : st.any = true) :
    (mux_consume st b).any = true := by
  unfold mux_consume
  split
  · exact h
  · split
    · simp [h]
    · exact h

lemma mux_foldl_any_true : ∀ (L : List W2mBlk) (st : MuxSt), st.any = true →
    (L.foldl mux_consume st).any = true := by
  intro L
  induction L with
  | nil => intro st h; exact h
  | cons b t ih =>
    intro st h
    rw [List.foldl_cons]
    exact ih _ (mux_consume_any_of st b h)

lemma mux_consume_any_eq (st : MuxSt) (b : W2mBlk)
    (h : ¬(1 ≤ b.bs100k ∧ b.bs100k ≤ 9)) :
    (mux_consume st b).any = st.any := by
  unfold mux_consume
  split
  · rfl
  · split
    · rename_i hbs
      have h9 : ¬ b.bs100k ≤ 9 := by omega
      simp [h9]
    · rfl

lemma mux_foldl_any_none : ∀ (L : List W2mBlk) (st : MuxSt),
    (∀ b ∈ L, ¬(1 ≤ b.bs100k ∧ b.bs100k ≤ 9)) →
    (L.foldl mux_consume st).any = st.any := by
  intro L
  induction L with
  | nil => intro st _; rfl
  | cons b t ih =>
    intro st h
    rw [List.foldl_cons]
    rw [ih _ (fun c hc => h c (List.mem_cons_of_mem b hc))]
    exact mux_consume_any_eq st b (h b (List.mem_cons_self b t))

lemma mux_foldl_any_reach : ∀ (L : List W2mBlk) (st : MuxSt),
    st.finished = false →
    List.Pairwise (fun a b => 9 < a.bs100k → ¬(1 ≤ b.bs100k ∧ b.bs100k ≤ 9)) L →
    (∃ b ∈ L, 1 ≤ b.bs100k ∧ b.bs100k ≤ 9) →
    (L.foldl mux_consume st).any = true := by
  intro L
  induction L with
  | nil => intro st _ _ hex; simp at hex
  | cons b t ih =>
    intro st hfin hpw hex
    rw [List.foldl_cons]
    rcases List.pairwise_cons.mp hpw with ⟨hb, hpt⟩
    by_cases hr : 1 ≤ b.bs100k ∧ b.bs100k ≤ 9
    · apply mux_foldl_any_true
      unfold mux_consume
      rw [if_neg (by simp [hfin])]
      rw [if_pos (by omega : b.bs100k ≠ 0)]
      simp [hr.2]
    · rcases hex with ⟨c, hc, hcr⟩
      rcases List.mem_cons.mp hc with rfl | hct
      · exact absurd hcr hr
      · by_cases hz : b.bs100k = 0
        · apply ih
          · unfold mux_consume
            rw [if_neg (by simp [hfin]), if_neg (by simp [hz])]
            exact hfin
          · exact hpt
          · exact ⟨c, hct, hcr⟩
        · have h9 : 9 < b.bs100k := by omega
          exact absurd hcr (hb c hct h9)

/-! Claim theorems. -/

/-- Claim C2, counterexample: the next-needed triple is not initialized
to (1, 0, 0); both w2m_q_init and mux initialize it to (0, 0, 0). -/
theorem needed_init_cex :
    mux_reord_needed_init ≠ (⟨1, 0, 0⟩ : W2mBlkNid)
    ∧ w2m_q_init_needed ≠ (⟨1, 0, 0⟩ : W2mBlkNid) := by
  decide

/-- Claim C2, amended: when the muxer starts, its next-needed triple is
initialized to (0, 0, 0), and the first sub-block it waits for and emits
is the decoder-less sentinel, whose identity matches (0, 0, 0). -/
theorem needed_init_amended :
    w2m_q_init_needed = (⟨0, 0, 0⟩ : W2mBlkNid)
    ∧ mux_reord_needed_init = (⟨0, 0, 0⟩ : W2mBlkNid)
    ∧ ∀ (s b : Nat) (l : Bool),
      w2m_blk_id_eq
        { w2w_blk_id := work_oflush_id false s b l
          decompr_blk_id := 0
          last_decompr := true }
        mux_reord_needed_init = true := by
  refine ⟨rfl, rfl, ?_⟩
  intro s b l
  simp [w2m_blk_id_eq, work_oflush_id, mux_reord_needed_init]

/-- Claim C3, counterexample: the chunk buffer does not hold 1,048,576
32-bit words, and the splitter does not read up to 4,194,304 bytes. -/
theorem chunk_words_cex : MX_SPLIT ≠ 1048576 ∧ 4 * MX_SPLIT ≠ 4194304 := by
  decide

/-- Claim C3, amended: every input chunk has a fixed buffer of
MX_SPLIT = 262,144 32-bit words (1 MiB), on each iteration the splitter
reads up to 4 * MX_SPLIT = 1,048,576 bytes into it, and every published
chunk carries at most MX_SPLIT loaded words. -/
theorem chunk_words_amended :
    MX_SPLIT = 262144 ∧ 4 * MX_SPLIT = 1048576
    ∧ (∀ L, split_read L ≤ 4 * MX_SPLIT)
    ∧ ∀ L blk, blk ∈ splitChunks L → blk.loaded ≤ MX_SPLIT := by
  refine ⟨by decide, by decide, fun L => min_le_right _ _, ?_⟩
  intro L blk h
  exact (splitGo_spec (L + 1) L 0 false blk h).1

/-- Witness for chunk_words_amended at an 8-byte input. -/
theorem chunk_words_witness :
    (⟨1, 2, 1⟩ : S2wBlk) ∈ splitChunks 8
    ∧ (⟨1, 2, 1⟩ : S2wBlk).loaded ≤ MX_SPLIT :=
  ⟨by decide, chunk_words_amended.2.2.2 8 ⟨1, 2, 1⟩ (by decide)⟩

/-- Claim C4, counterexample: the recorded end_offs is not the byte
offset at which the block ends; at chunk id 2 and word position 1 the
field holds 262,145 while the byte offset of that point is 1,048,580. -/
theorem end_offs_bytes_cex :
    work_retrieve_end_offs 2 1 ≠ end_offs_spec_bytes 2 1 := by
  decide

/-- Claim C4, amended: the recorded end_offs is the offset of the end of
the block counted in 32-bit words, (id - 1) * MX_SPLIT + ipos; the byte
offset the claim describes is 4 times the recorded field, and the muxer
progress accounting likewise converts the file size to words. -/
theorem end_offs_words_amended : ∀ id ipos, 0 < id →
    work_retrieve_end_offs id ipos = end_word_pos id ipos
    ∧ end_offs_spec_bytes id ipos = 4 * work_retrieve_end_offs id ipos
    ∧ ∀ w, mux_progress_total (4 * w) = w := by
  intro id ipos h
  refine ⟨by simp [work_retrieve_end_offs, h, end_word_pos], ?_, ?_⟩
  · simp [end_offs_spec_bytes, work_retrieve_end_offs, h, end_word_pos]
  · intro w
    simp [mux_progress_total]
    omega

/-- Witness for end_offs_words_amended at chunk id 2, word position 1. -/
theorem end_offs_words_witness : 0 < 2
    ∧ (work_retrieve_end_offs 2 1 = end_word_pos 2 1
      ∧ end_offs_spec_bytes 2 1 = 4 * work_retrieve_end_offs 2 1
      ∧ ∀ w, mux_progress_total (4 * w) = w) :=
  ⟨by decide, end_offs_words_amended 2 1 (by decide)⟩

/-- Claim C5, counterexample: at publish time the refcount does not
equal 1 + (has_successor ? 1 : 0).  On an input of 4 * MX_SPLIT + 8
bytes the splitter publishes chunk 1 with refno 1 although chunk 2
follows it, and chunk 2 with refno 2 although no chunk follows it. -/
theorem refno_successor_cex :
    ¬ (∀ blk ∈ splitChunks (4 * MX_SPLIT + 8),
      blk.refno = 1 + (if (splitChunks (4 * MX_SPLIT + 8)).any
        (fun b => b.id == blk.id + 1) then 1 else 0)) := by
  decide

/-- Claim C5, amended: at publish time the refcount equals
1 + (has_predecessor ? 1 : 0): one reference for the scan chain, plus
one more exactly when a predecessor chunk exists whose next pointer will
point at this chunk, i.e. refno is 1 for chunk id 1 and 2 for every
later chunk. -/
theorem refno_predecessor_amended : ∀ L blk, blk ∈ splitChunks L →
    blk.refno = 1 + (if 1 < blk.id then 1 else 0) := by
  intro L blk h
  obtain ⟨-, hid, hr⟩ := splitGo_spec (L + 1) L 0 false blk h
  by_cases h1 : blk.id = 1
  · rw [hr]
    simp [h1]
  · have h2 : 1 < blk.id := by omega
    rw [hr]
    simp [h1, h2]

/-- Witness for refno_predecessor_amended at the second chunk of a
4 * MX_SPLIT + 8 byte input. -/
theorem refno_predecessor_witness :
    (⟨2, 2, 2⟩ : S2wBlk) ∈ splitChunks (4 * MX_SPLIT + 8)
    ∧ (⟨2, 2, 2⟩ : S2wBlk).refno
      = 1 + (if 1 < (⟨2, 2, 2⟩ : S2wBlk).id then 1 else 0) :=
  ⟨by decide, refno_predecessor_amended (4 * MX_SPLIT + 8) ⟨2, 2, 2⟩ (by decide)⟩

/-- Claim C6: after the muxer emits a sub-block, the next-needed triple
advances to (input_chunk_id + 1, 0, 0) when last_sub_flag and
last_bzip2_flag both hold, to (input_chunk_id, bzip2_idx + 1, 0) when
only last_sub_flag holds, and to (input_chunk_id, bzip2_idx,
sub_idx + 1) otherwise. -/
theorem advance_needed_correct : ∀ (nid : W2mBlkNid) (id : W2mBlkId),
    mux_advance_needed nid id =
      if id.last_decompr = true ∧ id.w2w_blk_id.last_bzip2 = true then
        ⟨nid.s2w_blk_id + 1, 0, 0⟩
      else if id.last_decompr = true then
        ⟨nid.s2w_blk_id, nid.bzip2_blk_id + 1, 0⟩
      else
        ⟨nid.s2w_blk_id, nid.bzip2_blk_id, nid.decompr_blk_id + 1⟩ := by
  intro nid id
  rcases id with ⟨⟨s, bz, lb⟩, d, ld⟩
  cases ld <;> cases lb <;> simp [mux_advance_needed]

/-- Claim C7: while the last stream is not finished, consuming a
sub-block with last_sub_flag set updates the 32-bit stream CRC
accumulator to rotl(crc, 1) xor block_crc, and the muxer aborts with
the message "block overrun" exactly when the bs100k1 of the block
exceeds the declared stream bs100k. -/
theorem crc_fold_overrun_correct : ∀ (st : MuxSt) (b : W2mBlk),
    st.finished = false → b.id.last_decompr = true → b.bs100k = 0 →
    st.crc < 2 ^ 32 →
    (mux_consume st b).crc = rotl32 st.crc ^^^ b.crc1
    ∧ (mux_overrun st b = true ↔ st.bs100k < b.bs100k1) := by
  intro st b hfin hld hbs hcrc
  constructor
  · unfold mux_consume
    rw [if_neg (by simp [hfin]), if_neg (by simp [hbs])]
    simp only [hld, if_pos rfl]
    exact mux_crc_fold_eq_rotl32 st.crc b.crc1 hcrc
  · simp [mux_overrun, hfin, hld]

/-- Witness for crc_fold_overrun_correct at a concrete state and
sub-block. -/
theorem crc_fold_overrun_witness :
    (⟨1, 5, true, false⟩ : MuxSt).finished = false
    ∧ (⟨1, 5, true, false⟩ : MuxSt).crc < 2 ^ 32
    ∧ ((mux_consume ⟨1, 5, true, false⟩
          ⟨⟨⟨1, 0, true⟩, 0, true⟩, 0, 0, 2, 0, 7, 0⟩).crc
        = rotl32 (⟨1, 5, true, false⟩ : MuxSt).crc ^^^ (7 : Nat)
      ∧ (mux_overrun ⟨1, 5, true, false⟩
            ⟨⟨⟨1, 0, true⟩, 0, true⟩, 0, 0, 2, 0, 7, 0⟩ = true
          ↔ (⟨1, 5, true, false⟩ : MuxSt).bs100k < 2)) :=
  ⟨rfl, by decide,
    crc_fold_overrun_correct ⟨1, 5, true, false⟩
      ⟨⟨⟨1, 0, true⟩, 0, true⟩, 0, 0, 2, 0, 7, 0⟩ rfl rfl rfl (by decide)⟩

/-- Claim C8: after the muxer main loop ends, the program aborts with
"not a valid bzip2 file" if and only if no consumed sub-block carried a
new-stream bs100k in 1..9 (stated for consumption sequences in which no
stream opener follows the terminal sentinel, which is how every run
behaves); in particular a 0-byte input publishes no chunk and reaches
this abort. -/
theorem not_valid_iff_correct :
    (∀ L : List W2mBlk, NoStreamAfterFinish L →
      (mux_fatal_not_valid L = true ↔ ∀ b ∈ L, ¬(1 ≤ b.bs100k ∧ b.bs100k ≤ 9)))
    ∧ splitChunks 0 = [] ∧ mux_fatal_not_valid [] = true := by
  refine ⟨?_, by decide, by decide⟩
  intro L hL
  constructor
  · intro hfatal b hb hr
    have hreach := mux_foldl_any_reach L mux_init rfl hL ⟨b, hb, hr⟩
    simp [mux_fatal_not_valid, mux_any, mux_run, hreach] at hfatal
  · intro hnone
    simp only [mux_fatal_not_valid, mux_any, mux_run]
    rw [mux_foldl_any_none L mux_init hnone]
    rfl

/-- Witness for not_valid_iff_correct at a singleton consumption list
whose sub-block opens a stream with bs100k 1. -/
theorem not_valid_iff_witness :
    NoStreamAfterFinish [(⟨⟨⟨1, 0, true⟩, 0, true⟩, 0, 1, 1, 0, 0, 0⟩ : W2mBlk)]
    ∧ (mux_fatal_not_valid
          [(⟨⟨⟨1, 0, true⟩, 0, true⟩, 0, 1, 1, 0, 0, 0⟩ : W2mBlk)] = true
        ↔ ∀ b ∈ [(⟨⟨⟨1, 0, true⟩, 0, true⟩, 0, 1, 1, 0, 0, 0⟩ : W2mBlk)],
            ¬(1 ≤ b.bs100k ∧ b.bs100k ≤ 9)) := by
  have hpw : NoStreamAfterFinish
      [(⟨⟨⟨1, 0, true⟩, 0, true⟩, 0, 1, 1, 0, 0, 0⟩ : W2mBlk)] := by
    simp [NoStreamAfterFinish]
  exact ⟨hpw, not_valid_iff_correct.1 _ hpw⟩

/-- Claim C9: when the DFA pass over a chunk with id > 1 finds no block
header, the scanner aborts with "missing bzip2 block header in full
first input block" when the chunk is full (loaded = MX_SPLIT) and
otherwise releases the chunk and returns without publishing any
block. -/
theorem scan_no_header_correct : ∀ (id loaded ipos ibitbuf ibits_left : Nat),
    1 < id →
    work_scan id loaded false ipos ibitbuf ibits_left =
      if loaded = MX_SPLIT then
        ScanOutcome.fatal "missing bzip2 block header in full first input block"
      else ScanOutcome.release_no_publish := by
  intro id loaded ipos ibb ibl h
  simp [work_scan, h]

/-- Witness for scan_no_header_correct at chunk id 2. -/
theorem scan_no_header_witness :
    1 < 2
    ∧ work_scan 2 MX_SPLIT false 0 0 0 =
        if MX_SPLIT = MX_SPLIT then
          ScanOutcome.fatal "missing bzip2 block header in full first input block"
        else ScanOutcome.release_no_publish :=
  ⟨by decide, scan_no_header_correct 2 MX_SPLIT 0 0 0 (by decide)⟩

/-- Claim C10: the block published with no attached decoder is created
only for the chunk with id 1 (every other block gets a fresh decoder),
receives the identity (0, 0, last_bzip2 = true), which is strictly below
the identity of every real block because published chunk ids start at 1,
and the decoding worker turns it into exactly one terminal sub-block
with sub index 0, zero produced bytes and end_offs 0. -/
theorem sentinel_block_correct :
    (∀ (s b : Nat) (l : Bool), work_oflush_id false s b l
        = { s2w_blk_id := 0, bzip2_blk_id := 0, last_bzip2 := true })
    ∧ work_retrieve_first_ybdec 1 = false
    ∧ (∀ id, id ≠ 1 → work_retrieve_first_ybdec id = true)
    ∧ (∀ rid : W2wBlkId, 1 ≤ rid.s2w_blk_id →
        w2w_blk_cmp ⟨0, 0, true⟩ rid = -1)
    ∧ (∀ w : W2wBlk, (work_decompr_no_ybdec w).length = 1
        ∧ (work_decompr_sentinel w).id.decompr_blk_id = 0
        ∧ (work_decompr_sentinel w).id.last_decompr = true
        ∧ (work_decompr_sentinel w).produced = 0
        ∧ (work_decompr_sentinel w).end_offs = 0)
    ∧ (∀ L blk, blk ∈ splitChunks L → 1 ≤ blk.id) := by
  refine ⟨fun s b l => rfl, rfl, ?_, ?_, ?_, ?_⟩
  · intro id h
    simp [work_retrieve_first_ybdec, h]
  · intro rid h
    have h0 : (0 : Nat) < rid.s2w_blk_id := h
    simp [w2w_blk_cmp, h0]
  · intro w
    exact ⟨rfl, rfl, rfl, rfl, rfl⟩
  · intro L blk h
    exact (splitGo_spec (L + 1) L 0 false blk h).2.1

/-- Witness for sentinel_block_correct at concrete identities. -/
theorem sentinel_block_witness :
    (2 : Nat) ≠ 1 ∧ work_retrieve_first_ybdec 2 = true
    ∧ (1 : Nat) ≤ (⟨1, 0, false⟩ : W2wBlkId).s2w_blk_id
    ∧ w2w_blk_cmp ⟨0, 0, true⟩ ⟨1, 0, false⟩ = -1
    ∧ (⟨1, 2, 1⟩ : S2wBlk) ∈ splitChunks 8 ∧ 1 ≤ (⟨1, 2, 1⟩ : S2wBlk).id :=
  ⟨by decide, sentinel_block_correct.2.2.1 2 (by decide),
   by decide, sentinel_block_correct.2.2.2.1 ⟨1, 0, false⟩ (by decide),
   by decide, sentinel_block_correct.2.2.2.2.2 8 ⟨1, 2, 1⟩ (by decide)⟩

end Lbunzip2
